import Mathlib

/-!
Shallow embedding of the videochart-web client modules that the verified
claims are about: the Animator timeline (bar stagger schedule, typewriter
title reveal, debug frame-sampling cadence), the VideoRecorder lifecycle,
the DataLoader validation and load paths, and ConfigManager.getResolution.

Numbers that JavaScript stores as float64 are modelled as exact rationals;
JavaScript strings are modelled as Lean strings.
-/

/-- JavaScript `Math.floor` on an exact rational, as an integer
(`q.num / q.den` is integer division towards negative infinity once the
rational is normalised with a positive denominator). -/
def jsFloor (q : ℚ) : ℤ := q.num / q.den

/-- JavaScript `Math.round` (round half towards positive infinity). -/
def jsRound (q : ℚ) : ℤ := jsFloor (q + 1/2)

theorem jsFloor_eq_floor (q : ℚ) : jsFloor q = ⌊q⌋ := by
  rw [jsFloor, Rat.floor_def]

theorem jsRound_eq (q : ℚ) : jsRound q = ⌊q + 1/2⌋ := by
  rw [jsRound, jsFloor_eq_floor]

/-- JavaScript `String.prototype.toUpperCase`, restricted to the ASCII
case mapping of `Char.toUpper` (the only characters the app feeds it). -/
def jsToUpperCase (s : String) : String := ⟨s.data.map Char.toUpper⟩

theorem jsToUpperCase_length (s : String) :
    (jsToUpperCase s).length = s.length := by
  show (s.data.map Char.toUpper).length = s.data.length
  exact List.length_map _ _

theorem string_length_take (s : String) (n : ℕ) :
    (s.take n).length = min n s.length := by
  show (s.take n).data.length = _
  rw [String.data_take, List.length_take]
  rfl

namespace Animator

/-- `const titleDuration = this.duration * 0.2` -/
def titleDuration (duration : ℚ) : ℚ := duration * (2/10)

/-- `const barsDuration = this.duration * 0.4` -/
def barsDuration (duration : ℚ) : ℚ := duration * (4/10)

/-- `const labelsDuration = this.duration * 0.2` -/
def labelsDuration (duration : ℚ) : ℚ := duration * (2/10)

/-- `const holdDuration = this.duration * 0.2` -/
def holdDuration (duration : ℚ) : ℚ := duration * (2/10)

/-- `const delay = (index * 0.15)` in the per-bar loop. -/
def staggerDelay (index : ℕ) : ℚ := index * (15/100)

/-- The position parameter `titleDuration + delay` at which the growth
tween of bar `index` is inserted into the timeline. -/
def barStartTime (duration : ℚ) (index : ℕ) : ℚ :=
  titleDuration duration + staggerDelay index

/-- The per-bar tween duration `barsDuration / bars.length`. -/
def perBarDuration (duration : ℚ) (barsLength : ℕ) : ℚ :=
  barsDuration duration / barsLength

/-- The timeline instant at which bar `index` finishes its growth tween. -/
def barEndTime (duration : ℚ) (barsLength index : ℕ) : ℚ :=
  barStartTime duration index + perBarDuration duration barsLength

/-- The typewriter tween runs `charsVisible` from `0` to
`titleText.length` with `ease: 'none'`, so at local progress
`titleReveal` its value is `titleReveal * titleText.length`. -/
def charsVisibleAt (titleLen : ℕ) (titleReveal : ℚ) : ℚ :=
  titleReveal * titleLen

/-- The typewriter branch of `redrawChart`:
`const chars = Math.floor(titleElement.charsVisible);`
`displayTitle = fullTitle.substring(0, chars);`
where `fullTitle = this.chartRenderer.config.title.toUpperCase()`. -/
def typewriterDisplayTitle (title : String) (titleReveal : ℚ) : String :=
  let fullTitle := jsToUpperCase title
  fullTitle.take (jsFloor (charsVisibleAt fullTitle.length titleReveal)).toNat

/-- Modelled from the spec: the displayed typewriter prefix is claimed to
be the first `round(titleReveal * titleLength)` characters of the
upper-cased title (the source uses `Math.floor`, see
`typewriterDisplayTitle`); kept for comparison with the source version. -/
def typewriterDisplayTitleSpec (title : String) (titleReveal : ℚ) : String :=
  let fullTitle := jsToUpperCase title
  fullTitle.take (jsRound (charsVisibleAt fullTitle.length titleReveal)).toNat

/-- `const fps = 30` in the timeline's `onUpdate` debug branch. -/
def fps : ℕ := 30

/-- `const frameInterval = 1 / fps` -/
def frameInterval : ℚ := 1 / (fps : ℚ)

/-- `const expectedFrame = Math.floor(currentTime / frameInterval)` -/
def expectedFrame (currentTime : ℚ) : ℤ :=
  jsFloor (currentTime / frameInterval)

/-- `const captureEvery = 10` -/
def captureEvery : ℕ := 10

/-- `this.frameCounter === 1 || this.frameCounter % captureEvery === 0` -/
def captureDue (frameCounter : ℤ) : Bool :=
  frameCounter == 1 || frameCounter % (captureEvery : ℤ) == 0

/-- One evaluation of the debug branch of the timeline's `onUpdate`
callback: if the elapsed time has crossed a new `1/fps` boundary the
frame counter is advanced to `expectedFrame`, and a capture is triggered
exactly when `captureDue` holds of the advanced counter; otherwise the
counter is unchanged and nothing is captured. Returns the new counter
and whether `captureCurrentFrame` was invoked. -/
def onUpdateTick (frameCounter : ℤ) (currentTime : ℚ) : ℤ × Bool :=
  let e := expectedFrame currentTime
  if e > frameCounter then (e, captureDue e) else (frameCounter, false)

end Animator

namespace VideoRecorder

/-- The preference-ordered codec list in `detectMimeType`. -/
def mimeTypeCandidates : List String :=
  ["video/webm;codecs=vp9", "video/webm;codecs=vp8", "video/webm", "video/mp4"]

/-- `detectMimeType`: the first candidate `MediaRecorder.isTypeSupported`
accepts, or the empty string (the environment default) as the fallback.
`isTypeSupported` abstracts the host capability probe. -/
def detectMimeType (isTypeSupported : String → Bool) : String :=
  match mimeTypeCandidates.find? isTypeSupported with
  | some t => t
  | none => ""

/-- The mutable fields of a `VideoRecorder` instance that its lifecycle
reads and writes: the buffered chunk sizes, the `isRecording` flag, the
assembled blob size (`none` until a recording has been stopped), and the
negotiated MIME type. -/
structure State where
  chunks : List ℕ
  isRecording : Bool
  videoBlob : Option ℕ
  mimeType : String
deriving DecidableEq, Repr

/-- The state set up by the constructor. -/
def init (isTypeSupported : String → Bool) : State :=
  { chunks := [], isRecording := false, videoBlob := none,
    mimeType := detectMimeType isTypeSupported }

/-- The two state errors `start`/`stop` can throw. -/
inductive Error where
  | recordingAlreadyInProgress
  | noRecordingInProgress
deriving DecidableEq, Repr

/-- `start()`: throws if already recording, otherwise clears the previous
recording (`this.chunks = []; this.videoBlob = null`) and begins a new
one. -/
def start (s : State) : Except Error State :=
  if s.isRecording then .error .recordingAlreadyInProgress
  else .ok { s with chunks := [], videoBlob := none, isRecording := true }

/-- The `ondataavailable` handler: appends the delivered chunk when its
size is positive (`if (event.data && event.data.size > 0)`). -/
def ondataavailable (s : State) (size : ℕ) : State :=
  if 0 < size then { s with chunks := s.chunks ++ [size] } else s

/-- `stop()`: throws if no recording is in progress, otherwise assembles
the buffered chunks into the blob (its size is the sum of the chunk
sizes), clears `isRecording`, and resolves with the blob. -/
def stop (s : State) : Except Error (ℕ × State) :=
  if !s.isRecording then .error .noRecordingInProgress
  else
    let blobSize := s.chunks.sum
    .ok (blobSize, { s with isRecording := false, videoBlob := some blobSize })

/-- The externally triggered events of one recorder instance: the caller's
`start()`/`stop()` calls and the asynchronous chunk deliveries. -/
inductive Event where
  | start
  | dataAvailable (size : ℕ)
  | stop
deriving DecidableEq, Repr

/-- One event applied to the recorder state. -/
def step (s : State) : Event → Except Error State
  | .start => start s
  | .dataAvailable size => .ok (ondataavailable s size)
  | .stop => (stop s).map (fun p => p.2)

/-- A sequence of events applied in order, stopping at the first error. -/
def runEvents (s : State) : List Event → Except Error State
  | [] => .ok s
  | e :: es =>
    match step s e with
    | .error err => .error err
    | .ok s2 => runEvents s2 es

end VideoRecorder

/-- A JavaScript number as seen by `typeof`/`isNaN`: a finite value, NaN,
or one of the two infinities. -/
inductive JSNumber where
  | finite (q : ℚ)
  | nan
  | posInf
  | negInf
deriving DecidableEq, Repr

/-- JavaScript global `isNaN` on a value already of number type. -/
def JSNumber.isNaNJS : JSNumber → Bool
  | .nan => true
  | _ => false

/-- `Number.isFinite` semantics: true only for finite values. -/
def JSNumber.isFinite : JSNumber → Bool
  | .finite _ => true
  | _ => false

/-- The JavaScript values `DataLoader.validateData` can be handed. -/
inductive JSValue where
  | null
  | undefined
  | boolean (b : Bool)
  | number (n : JSNumber)
  | string (s : String)
  | array (elems : List JSValue)
  | object (fields : List (String × JSValue))

/-- JavaScript falsiness: `null`, `undefined`, `false`, `0`, `NaN` and
the empty string are falsy; arrays and objects are always truthy. -/
def JSValue.isFalsy : JSValue → Bool
  | .null => true
  | .undefined => true
  | .boolean b => !b
  | .number (.finite q) => q == 0
  | .number .nan => true
  | .number _ => false
  | .string s => s == ""
  | .array _ => false
  | .object _ => false

/-- `typeof v === 'object'`: true for `null`, arrays and objects. -/
def JSValue.typeofIsObject : JSValue → Bool
  | .null => true
  | .array _ => true
  | .object _ => true
  | _ => false

/-- Property access `v[key]`: looks the key up in an object, `undefined`
anywhere else (`validateData` only reaches this after the object check). -/
def JSValue.getField : JSValue → String → JSValue
  | .object fields, key =>
    match fields.find? (fun p => p.1 == key) with
    | some p => p.2
    | none => .undefined
  | _, _ => .undefined

namespace DataLoader

/-- The distinct error paths of the DataLoader, one per thrown message. -/
inductive DataError where
  | invalidJSONObject
  | countriesFieldMissing
  | gdpFieldMissing
  | arrayLengthMismatch
  | emptyData
  | invalidGdpValues
  | parseError
  | fetchError
deriving DecidableEq, Repr

/-- The filter predicate of
`data.gdp.filter(val => typeof val !== 'number' || isNaN(val))`. -/
def isInvalidGdpValue : JSValue → Bool
  | .number n => n.isNaNJS
  | _ => true

/-- `validateData`: the successive checks of the source method, in source
order. A field check `!data.x || !Array.isArray(data.x)` passes exactly
when the field holds an array (arrays are truthy, and every non-array is
either falsy or fails `Array.isArray`). -/
def validateData (data : JSValue) : Except DataError Unit :=
  if data.isFalsy || !data.typeofIsObject then .error .invalidJSONObject
  else
    match data.getField "countries" with
    | .array countries =>
      match data.getField "gdp" with
      | .array gdp =>
        if countries.length ≠ gdp.length then .error .arrayLengthMismatch
        else if countries.length = 0 then .error .emptyData
        else if (gdp.filter isInvalidGdpValue).length > 0 then
          .error .invalidGdpValues
        else .ok ()
      | _ => .error .gdpFieldMissing
    | _ => .error .countriesFieldMissing

/-- The instance fields of a DataLoader: the stored data and file name. -/
structure Stored where
  data : Option JSValue
  fileName : Option String

/-- `url.split('/').pop()` -/
def lastPathSegment (url : String) : String :=
  ((url.splitOn "/").getLast?).getD ""

/-- `loadFromFile`.  `parseResult` models the outcome of
`JSON.parse(e.target.result)` (`none` = the parse threw).  Returns the
promise outcome and the instance state after the call; `this.data` and
`this.fileName` are assigned only after `validateData` succeeds. -/
def loadFromFile (st : Stored) (parseResult : Option JSValue)
    (name : String) : Except DataError JSValue × Stored :=
  match parseResult with
  | none => (.error .parseError, st)
  | some data =>
    match validateData data with
    | .error e => (.error e, st)
    | .ok _ => (.ok data, { data := some data, fileName := some name })

/-- `loadFromURL`.  `response` models the fetched-and-parsed body
(`none` = the fetch failed or `response.json()` threw). -/
def loadFromURL (st : Stored) (response : Option JSValue)
    (url : String) : Except DataError JSValue × Stored :=
  match response with
  | none => (.error .fetchError, st)
  | some data =>
    match validateData data with
    | .error e => (.error e, st)
    | .ok _ => (.ok data, { data := some data,
                            fileName := some (lastPathSegment url) })

end DataLoader

namespace ConfigManager

/-- What `resolutions[resolution]` can evaluate to: a width/height pair
from the table, or — because JavaScript bracket access on an object
literal walks the prototype chain — one of the members inherited from
`Object.prototype` (a function, or `Object.prototype` itself for
`__proto__`), identified here by the accessed name. All inherited
members are truthy, so `|| resolutions['1080p']` does not replace
them. -/
inductive ResolutionResult where
  | pair (width height : ℕ)
  | inherited (name : String)
deriving DecidableEq, Repr

/-- The property names an object literal inherits from
`Object.prototype` and therefore resolves without reaching the
`undefined` fallback path. -/
def objectPrototypeMembers : List String :=
  ["constructor", "hasOwnProperty", "isPrototypeOf",
   "propertyIsEnumerable", "toLocaleString", "toString", "valueOf",
   "__proto__", "__defineGetter__", "__defineSetter__",
   "__lookupGetter__", "__lookupSetter__"]

/-- `getResolution`: the three own keys of the `resolutions` object
literal, then — for any other string — the JavaScript semantics of
`resolutions[resolution] || resolutions['1080p']`: a name inherited
from `Object.prototype` yields the (truthy) inherited member, and only
a string matching no own or inherited property falls back to the
1080p pair. -/
def getResolution (resolution : String) : ResolutionResult :=
  if resolution = "480p" then .pair 854 480
  else if resolution = "720p" then .pair 1280 720
  else if resolution = "1080p" then .pair 1920 1080
  else if resolution ∈ objectPrototypeMembers then .inherited resolution
  else .pair 1920 1080

end ConfigManager

/-- Claim C8 (confirmed): for every bar count n ≥ 2, every pair of
adjacent indices i, i+1 < n, and every positive duration, the timeline
start time of bar i+1's growth tween is ≥ the start time of bar i's. -/
theorem animator_stagger_monotone (d : ℚ) (n i : ℕ)
    (hn : 2 ≤ n) (hi : i + 1 < n) (hd : 0 < d) :
    Animator.barStartTime d i ≤ Animator.barStartTime d (i + 1) := by
  simp only [Animator.barStartTime, Animator.staggerDelay]
  push_cast
  linarith

/-- Witness for `animator_stagger_monotone` at d = 1, n = 2, i = 0. -/
theorem animator_stagger_monotone_witness :
    (2 ≤ 2 ∧ 0 + 1 < 2 ∧ (0:ℚ) < 1) ∧
      Animator.barStartTime 1 0 ≤ Animator.barStartTime 1 1 :=
  ⟨⟨by decide, by decide, by decide⟩,
    animator_stagger_monotone 1 2 0 (by decide) (by decide) (by decide)⟩

/-- Claim C1 counterexample: with durationSeconds = 5 and 20 bars (so
n ≥ 1 and d > 0 hold), the last bar's growth tween ends at 3.95 s,
strictly after the claimed deadline
titlePhaseEnd + barsPhaseDuration = 0.6 * 5 = 3 s: the fixed 0.15 s
stagger delay is not chosen to keep the last bar inside the bars phase. -/
theorem animator_deadline_counterexample :
    ((1:ℕ) ≤ 20 ∧ (0:ℚ) < 5) ∧
    Animator.titleDuration 5 + Animator.barsDuration 5 = (6/10) * 5 ∧
    Animator.titleDuration 5 + Animator.barsDuration 5
      < Animator.barEndTime 5 20 19 := by
  refine ⟨⟨by norm_num, by norm_num⟩, ?_, ?_⟩ <;>
    norm_num [Animator.barEndTime, Animator.barStartTime,
      Animator.staggerDelay, Animator.titleDuration,
      Animator.barsDuration, Animator.perBarDuration]

/-- Claim C1 (amended): for every bar count n ≥ 1 and duration d > 0,
bar i begins its growth at titlePhaseEnd + i * staggerDelay with the
fixed stagger delay 0.15 s, and the per-bar duration is
barsPhaseDuration / n; the last bar therefore finishes at
titlePhaseEnd + (n-1) * 0.15 + barsPhaseDuration / n, which meets the
titlePhaseEnd + barsPhaseDuration deadline iff
(n-1) * 0.15 ≤ barsPhaseDuration * (1 - 1/n) — not for all n and d. -/
theorem animator_bar_schedule (d : ℚ) (n i : ℕ)
    (hd : 0 < d) (hn : 1 ≤ n) (hi : i < n) :
    Animator.barStartTime d i
      = Animator.titleDuration d + (i : ℚ) * (15/100) ∧
    Animator.barEndTime d n (n - 1)
      = Animator.titleDuration d + ((n : ℚ) - 1) * (15/100)
        + Animator.barsDuration d / n ∧
    (Animator.barEndTime d n (n - 1)
        ≤ Animator.titleDuration d + Animator.barsDuration d ↔
      ((n : ℚ) - 1) * (15/100)
        ≤ Animator.barsDuration d * (1 - 1/(n : ℚ))) := by
  have hn0 : (0:ℚ) < (n:ℚ) := by exact_mod_cast Nat.lt_of_lt_of_le Nat.zero_lt_one hn
  have hcast : ((n - 1 : ℕ) : ℚ) = (n:ℚ) - 1 := by
    rw [Nat.cast_sub hn]; norm_num
  refine ⟨rfl, ?_, ?_⟩
  · simp only [Animator.barEndTime, Animator.barStartTime,
      Animator.staggerDelay, Animator.perBarDuration, hcast]
  · have hrw : Animator.barsDuration d * (1 - 1/(n:ℚ))
        = Animator.barsDuration d - Animator.barsDuration d / n := by
      field_simp
      ring
    rw [hrw]
    simp only [Animator.barEndTime, Animator.barStartTime,
      Animator.staggerDelay, Animator.perBarDuration, hcast]
    constructor <;> intro h <;> linarith

/-- Witness for `animator_bar_schedule` at d = 1, n = 2, i = 1. -/
theorem animator_bar_schedule_witness :
    ((0:ℚ) < 1 ∧ (1:ℕ) ≤ 2 ∧ (1:ℕ) < 2) ∧
    (Animator.barStartTime 1 1
      = Animator.titleDuration 1 + ((1:ℕ) : ℚ) * (15/100) ∧
    Animator.barEndTime 1 2 (2 - 1)
      = Animator.titleDuration 1 + (((2:ℕ) : ℚ) - 1) * (15/100)
        + Animator.barsDuration 1 / (2:ℕ) ∧
    (Animator.barEndTime 1 2 (2 - 1)
        ≤ Animator.titleDuration 1 + Animator.barsDuration 1 ↔
      (((2:ℕ) : ℚ) - 1) * (15/100)
        ≤ Animator.barsDuration 1 * (1 - 1/((2:ℕ) : ℚ)))) :=
  ⟨⟨by decide, by decide, by decide⟩,
    animator_bar_schedule 1 2 1 (by decide) (by decide) (by decide)⟩

/-- Claim C3 counterexample: at title-reveal progress 1/2 over the
3-character title "abc" (upper-cased to "ABC"), the redraw shows
floor(1/2 * 3) = 1 character ("A"), while the spec's
round(1/2 * 3) = 2 characters would be "AB". -/
theorem typewriter_round_counterexample :
    ((0:ℚ) ≤ 1/2 ∧ (1/2:ℚ) ≤ 1) ∧
    Animator.typewriterDisplayTitle "abc" (1/2) = "A" ∧
    Animator.typewriterDisplayTitleSpec "abc" (1/2) = "AB" ∧
    Animator.typewriterDisplayTitle "abc" (1/2)
      ≠ Animator.typewriterDisplayTitleSpec "abc" (1/2) := by
  have hu : jsToUpperCase "abc" = "ABC" := by decide
  have hlen : (jsToUpperCase "abc").length = 3 := by rw [hu]; decide
  have hchars : Animator.charsVisibleAt (jsToUpperCase "abc").length (1/2)
      = 3/2 := by
    rw [Animator.charsVisibleAt, hlen]; norm_num
  have hfl : (jsFloor (3/2)).toNat = 1 := by
    rw [jsFloor_eq_floor]; norm_num
  have hrd : (jsRound (3/2)).toNat = 2 := by
    rw [jsRound_eq]; norm_num
    decide
  have e1 : Animator.typewriterDisplayTitle "abc" (1/2) = "A" := by
    show (jsToUpperCase "abc").take
      (jsFloor (Animator.charsVisibleAt (jsToUpperCase "abc").length
        (1/2))).toNat = "A"
    rw [hchars, hfl, hu]
    decide
  have e2 : Animator.typewriterDisplayTitleSpec "abc" (1/2) = "AB" := by
    show (jsToUpperCase "abc").take
      (jsRound (Animator.charsVisibleAt (jsToUpperCase "abc").length
        (1/2))).toNat = "AB"
    rw [hchars, hrd, hu]
    decide
  refine ⟨⟨by norm_num, by norm_num⟩, e1, e2, ?_⟩
  rw [e1, e2]
  decide

/-- Claim C3 (amended): in typewriter mode, every redraw at title-reveal
progress r draws exactly the first floor(r * titleLength) characters
(not round) of the upper-cased title as the displayed prefix: the drawn
text is that take, its length is min(floor(r * titleLength), titleLength),
and its character data is a prefix of the full upper-cased title. -/
theorem typewriter_floor_chars (title : String) (r : ℚ)
    (h0 : 0 ≤ r) (h1 : r ≤ 1) :
    Animator.typewriterDisplayTitle title r
      = (jsToUpperCase title).take (jsFloor (r * (title.length : ℚ))).toNat ∧
    (Animator.typewriterDisplayTitle title r).length
      = min (jsFloor (r * (title.length : ℚ))).toNat title.length ∧
    (Animator.typewriterDisplayTitle title r).data
      <+: (jsToUpperCase title).data := by
  have hl : (jsToUpperCase title).length = title.length :=
    jsToUpperCase_length title
  have hdef : Animator.typewriterDisplayTitle title r
      = (jsToUpperCase title).take
          (jsFloor (r * (title.length : ℚ))).toNat := by
    show (jsToUpperCase title).take
      (jsFloor (Animator.charsVisibleAt (jsToUpperCase title).length
        r)).toNat = _
    rw [Animator.charsVisibleAt, hl]
  refine ⟨hdef, ?_, ?_⟩
  · rw [hdef, string_length_take, hl]
  · rw [hdef, String.data_take]
    exact List.take_prefix _ _

/-- Witness for `typewriter_floor_chars` at title = "ab", r = 0. -/
theorem typewriter_floor_chars_witness :
    ((0:ℚ) ≤ 0 ∧ (0:ℚ) ≤ 1) ∧
    (Animator.typewriterDisplayTitle "ab" 0
      = (jsToUpperCase "ab").take
          (jsFloor (0 * (("ab".length : ℕ) : ℚ))).toNat ∧
    (Animator.typewriterDisplayTitle "ab" 0).length
      = min (jsFloor (0 * (("ab".length : ℕ) : ℚ))).toNat "ab".length ∧
    (Animator.typewriterDisplayTitle "ab" 0).data
      <+: (jsToUpperCase "ab").data) :=
  ⟨⟨by decide, by decide⟩, typewriter_floor_chars "ab" 0 (by decide) (by decide)⟩

/-- Claim C7 (confirmed): on an `onUpdate` tick at elapsed time t, if
`expectedFrame t` does not exceed the stored counter (no new 1/fps
boundary crossed) the counter is unchanged and no capture is triggered;
if it does, the counter is advanced to `expectedFrame t`, and a capture
is triggered exactly when the advanced counter value is 1 or a multiple
of 10 — at no other counter value. -/
theorem frame_sampler_cadence (c : ℤ) (t : ℚ) (ht : 0 ≤ t) :
    (Animator.expectedFrame t ≤ c →
      Animator.onUpdateTick c t = (c, false)) ∧
    (c < Animator.expectedFrame t →
      (Animator.onUpdateTick c t).1 = Animator.expectedFrame t ∧
      ((Animator.onUpdateTick c t).2 = true ↔
        ((Animator.onUpdateTick c t).1 = 1 ∨
          (Animator.onUpdateTick c t).1 % 10 = 0))) := by
  constructor
  · intro h
    simp only [Animator.onUpdateTick]
    rw [if_neg (not_lt.mpr h)]
  · intro h
    simp only [Animator.onUpdateTick]
    rw [if_pos h]
    refine ⟨rfl, ?_⟩
    simp only [Animator.captureDue, Animator.captureEvery,
      Bool.or_eq_true, beq_iff_eq]
    norm_num

/-- Witness for `frame_sampler_cadence` at counter 0, elapsed time 1. -/
theorem frame_sampler_cadence_witness :
    (0:ℚ) ≤ 1 ∧
    ((Animator.expectedFrame 1 ≤ 0 →
      Animator.onUpdateTick 0 1 = (0, false)) ∧
    (0 < Animator.expectedFrame 1 →
      (Animator.onUpdateTick 0 1).1 = Animator.expectedFrame 1 ∧
      ((Animator.onUpdateTick 0 1).2 = true ↔
        ((Animator.onUpdateTick 0 1).1 = 1 ∨
          (Animator.onUpdateTick 0 1).1 % 10 = 0)))) :=
  ⟨by decide, frame_sampler_cadence 0 1 (by decide)⟩

/-- A host environment on which every candidate codec is supported. -/
def supportsAllTypes : String → Bool := fun _ => true

/-- A host environment on which no candidate codec is supported. -/
def supportsNoTypes : String → Bool := fun _ => false

/-- Claim C2 counterexample: a successful start → chunk → stop cycle
leaves the recorder Stopped with a 100-byte artifact, and a subsequent
`start()` on the same instance does not fail — it succeeds, clearing the
previous chunks and artifact and entering a new recording. -/
theorem videoRecorder_restart_counterexample :
    VideoRecorder.runEvents (VideoRecorder.init supportsAllTypes)
      [.start, .dataAvailable 100, .stop]
      = Except.ok { chunks := [100], isRecording := false,
                    videoBlob := some 100,
                    mimeType := "video/webm;codecs=vp9" } ∧
    VideoRecorder.runEvents (VideoRecorder.init supportsAllTypes)
      [.start, .dataAvailable 100, .stop, .start]
      = Except.ok { chunks := [], isRecording := true, videoBlob := none,
                    mimeType := "video/webm;codecs=vp9" } := by
  constructor <;> rfl

/-- Claim C2 (amended): `start()` fails with a state error only while a
recording is in progress; on any instance whose `isRecording` flag is
false — including one brought to the Stopped state by a completed
start/stop cycle — `start()` succeeds, clearing the previously stored
chunks and artifact and beginning a new recording. -/
theorem videoRecorder_start_gating (s : VideoRecorder.State) :
    (s.isRecording = false →
      VideoRecorder.start s
        = .ok { s with chunks := [], videoBlob := none,
                       isRecording := true }) ∧
    (s.isRecording = true →
      VideoRecorder.start s = .error .recordingAlreadyInProgress) := by
  constructor <;> intro h <;> simp [VideoRecorder.start, h]

/-- Witness for `videoRecorder_start_gating` on a Stopped recorder that
holds a 100-byte artifact. -/
theorem videoRecorder_start_gating_witness :
    ({ chunks := [100], isRecording := false, videoBlob := some 100,
       mimeType := "video/webm" } : VideoRecorder.State).isRecording
        = false ∧
    VideoRecorder.start
      { chunks := [100], isRecording := false, videoBlob := some 100,
        mimeType := "video/webm" }
      = .ok { chunks := [], isRecording := true, videoBlob := none,
              mimeType := "video/webm" } :=
  ⟨rfl,
    (videoRecorder_start_gating
      { chunks := [100], isRecording := false, videoBlob := some 100,
        mimeType := "video/webm" }).1 rfl⟩

/-- Claim C5 counterexample: in a host environment supporting none of
the candidate codecs, `detectMimeType` falls back to the empty string
and `start()` on a fresh instance succeeds — no UnsupportedEncoder
error is surfaced before recording starts. -/
theorem videoRecorder_no_codec_counterexample :
    VideoRecorder.detectMimeType supportsNoTypes = "" ∧
    VideoRecorder.start (VideoRecorder.init supportsNoTypes)
      = Except.ok { chunks := [], isRecording := true, videoBlob := none,
                    mimeType := "" } := by
  constructor <;> rfl

/-- Claim C5 (amended): when no codec from the preference-ordered list
is supported by the host environment, `detectMimeType` returns the
empty string (letting MediaRecorder pick its default) and `start()` on
a fresh instance proceeds successfully; no error is surfaced. -/
theorem videoRecorder_mime_fallback (isTypeSupported : String → Bool)
    (h : ∀ t ∈ VideoRecorder.mimeTypeCandidates, isTypeSupported t = false) :
    VideoRecorder.detectMimeType isTypeSupported = "" ∧
    VideoRecorder.start (VideoRecorder.init isTypeSupported)
      = Except.ok { chunks := [], isRecording := true, videoBlob := none,
                    mimeType := "" } := by
  have hfind : VideoRecorder.mimeTypeCandidates.find? isTypeSupported
      = none := by
    rw [List.find?_eq_none]
    intro x hx
    simp [h x hx]
  have hmime : VideoRecorder.detectMimeType isTypeSupported = "" := by
    rw [VideoRecorder.detectMimeType, hfind]
  refine ⟨hmime, ?_⟩
  simp [VideoRecorder.start, VideoRecorder.init, hmime]

/-- Witness for `videoRecorder_mime_fallback` in the
environment supporting no codec at all. -/
theorem videoRecorder_mime_fallback_witness :
    (∀ t ∈ VideoRecorder.mimeTypeCandidates, supportsNoTypes t = false) ∧
    (VideoRecorder.detectMimeType supportsNoTypes = "" ∧
    VideoRecorder.start (VideoRecorder.init supportsNoTypes)
      = Except.ok { chunks := [], isRecording := true, videoBlob := none,
                    mimeType := "" }) :=
  ⟨by decide, videoRecorder_mime_fallback supportsNoTypes (by decide)⟩

/-- Folding a block of chunk deliveries into the recorder buffers exactly
the positive-size chunks, in delivery order. -/
theorem runEvents_dataAvailable (ds : List ℕ) (s : VideoRecorder.State)
    (rest : List VideoRecorder.Event) :
    VideoRecorder.runEvents s
        (ds.map VideoRecorder.Event.dataAvailable ++ rest)
      = VideoRecorder.runEvents
          { s with chunks := s.chunks ++ ds.filter (fun d => decide (0 < d)) }
          rest := by
  induction ds generalizing s with
  | nil => simp
  | cons d ds ih =>
    simp only [List.map_cons, List.cons_append, VideoRecorder.runEvents,
      VideoRecorder.step, VideoRecorder.ondataavailable]
    by_cases hd : 0 < d
    · rw [if_pos hd, List.append_eq, ih]
      simp [List.filter_cons, hd]
    · rw [if_neg hd, List.append_eq, ih]
      simp [List.filter_cons, hd]

/-- Claim C6 (confirmed): `stop()` on any instance with no recording in
progress — the freshly constructed instance (whose `isRecording` is
false before any `start()`) as much as an already-stopped one — fails
with the no-recording state error; a second `start()` right after a
successful one fails with the already-recording state error; and a
start → deliveries → stop cycle in which the encoder delivers at least
one chunk of positive size succeeds and yields an artifact of positive
byte length. Chunk delivery is the host encoder's behaviour, modelled
as explicit `dataAvailable` events. -/
theorem videoRecorder_lifecycle (isTypeSupported : String → Bool)
    (s s1 s0 : VideoRecorder.State) (ds : List ℕ) :
    (s0.isRecording = false →
      VideoRecorder.stop s0 = .error .noRecordingInProgress) ∧
    (VideoRecorder.start s = .ok s1 →
      VideoRecorder.start s1 = .error .recordingAlreadyInProgress) ∧
    ((∃ d ∈ ds, 0 < d) →
      ∃ s2, VideoRecorder.runEvents (VideoRecorder.init isTypeSupported)
          (.start :: (ds.map .dataAvailable ++ [.stop])) = .ok s2 ∧
        ∃ sz, s2.videoBlob = some sz ∧ 0 < sz) := by
  refine ⟨?_, ?_, ?_⟩
  · intro h0
    simp [VideoRecorder.stop, h0]
  · intro h
    rw [VideoRecorder.start] at h
    split at h
    · exact absurd h (by simp)
    · have h2 : VideoRecorder.State.isRecording s1 = true := by
        cases h
        rfl
      simp [VideoRecorder.start, h2]
  · rintro ⟨d, hd, hdpos⟩
    set filtered := ds.filter (fun d => decide (0 < d)) with hfil
    have hstep : VideoRecorder.runEvents (VideoRecorder.init isTypeSupported)
        (.start :: (ds.map .dataAvailable ++ [.stop]))
        = VideoRecorder.runEvents
            { chunks := [], isRecording := true, videoBlob := none,
              mimeType := VideoRecorder.detectMimeType isTypeSupported }
            (ds.map .dataAvailable ++ [.stop]) := rfl
    rw [hstep, runEvents_dataAvailable]
    have hmem : d ∈ filtered := by
      rw [hfil]
      exact List.mem_filter.mpr ⟨hd, by simp [hdpos]⟩
    have hsum : 0 < filtered.sum :=
      Nat.lt_of_lt_of_le hdpos
        (List.single_le_sum (fun x _ => Nat.zero_le x) d hmem)
    refine ⟨_, rfl, filtered.sum, ?_, hsum⟩
    rfl

/-- Witness for `videoRecorder_lifecycle`: the all-codecs environment,
the fresh instance, the state after its `start()`, an already-stopped
instance holding a 100-byte artifact (exercising `stop()` after a
completed cycle), and the delivery list [100]. -/
theorem videoRecorder_lifecycle_witness :
    (({ chunks := [100], isRecording := false, videoBlob := some 100,
        mimeType := "video/webm;codecs=vp9" }
          : VideoRecorder.State).isRecording = false ∧
      VideoRecorder.stop
        { chunks := [100], isRecording := false, videoBlob := some 100,
          mimeType := "video/webm;codecs=vp9" }
        = .error .noRecordingInProgress) ∧
    VideoRecorder.start
      { chunks := [], isRecording := true, videoBlob := none,
        mimeType := "video/webm;codecs=vp9" }
      = .error .recordingAlreadyInProgress ∧
    ∃ s2, VideoRecorder.runEvents (VideoRecorder.init supportsAllTypes)
        (.start :: (([100] : List ℕ).map .dataAvailable ++ [.stop]))
        = .ok s2 ∧
      ∃ sz, s2.videoBlob = some sz ∧ 0 < sz :=
  ⟨⟨rfl,
    (videoRecorder_lifecycle supportsAllTypes
      (VideoRecorder.init supportsAllTypes)
      { chunks := [], isRecording := true, videoBlob := none,
        mimeType := "video/webm;codecs=vp9" }
      { chunks := [100], isRecording := false, videoBlob := some 100,
        mimeType := "video/webm;codecs=vp9" } [100]).1 rfl⟩,
   (videoRecorder_lifecycle supportsAllTypes
      (VideoRecorder.init supportsAllTypes)
      { chunks := [], isRecording := true, videoBlob := none,
        mimeType := "video/webm;codecs=vp9" }
      { chunks := [100], isRecording := false, videoBlob := some 100,
        mimeType := "video/webm;codecs=vp9" } [100]).2.1 rfl,
   (videoRecorder_lifecycle supportsAllTypes
      (VideoRecorder.init supportsAllTypes)
      { chunks := [], isRecording := true, videoBlob := none,
        mimeType := "video/webm;codecs=vp9" }
      { chunks := [100], isRecording := false, videoBlob := some 100,
        mimeType := "video/webm;codecs=vp9" } [100]).2.2 (by decide)⟩

/-- An input whose gdp array contains positive infinity: one row,
matching array lengths, every value of number type and not NaN. -/
def infinityInput : JSValue :=
  .object [("countries", .array [.string "ITA"]),
           ("gdp", .array [.number .posInf])]

/-- Claim C4 counterexample: `validateData` accepts an input whose gdp
array contains positive infinity — a non-finite number — because the
source only rejects non-numbers and NaN
(`typeof val !== 'number' || isNaN(val)`). -/
theorem validateData_accepts_infinity_counterexample :
    JSValue.getField infinityInput "gdp" = .array [.number .posInf] ∧
    JSNumber.isFinite .posInf = false ∧
    DataLoader.validateData infinityInput = .ok () :=
  ⟨rfl, rfl, rfl⟩

/-- A value the gdp filter does not flag is a number that is not NaN. -/
theorem isInvalidGdpValue_eq_false (v : JSValue)
    (h : DataLoader.isInvalidGdpValue v = false) :
    ∃ n, v = .number n ∧ n.isNaNJS = false := by
  cases v <;> simp [DataLoader.isInvalidGdpValue] at h ⊢
  exact h

/-- Claim C4 (amended): `validateData` accepts an input only if its
countries and gdp fields are arrays of equal length, there is at least
one row, and every gdp value is of number type and not NaN; values that
are non-finite without being NaN (positive or negative infinity) are
accepted, so acceptance does not guarantee finiteness. -/
theorem validateData_accepted_shape (d : JSValue)
    (h : DataLoader.validateData d = .ok ()) :
    ∃ countries gdp,
      d.getField "countries" = .array countries ∧
      d.getField "gdp" = .array gdp ∧
      countries.length = gdp.length ∧
      0 < countries.length ∧
      ∀ v ∈ gdp, ∃ n, v = .number n ∧ n.isNaNJS = false := by
  rw [DataLoader.validateData] at h
  split at h
  · exact absurd h (by simp)
  · split at h
    next countries hc =>
      split at h
      next gdp hg =>
        split at h
        · exact absurd h (by simp)
        · split at h
          · exact absurd h (by simp)
          · split at h
            · exact absurd h (by simp)
            next hlen hzero hfil =>
              refine ⟨countries, gdp, hc, hg, by omega, by omega, ?_⟩
              intro v hv
              apply isInvalidGdpValue_eq_false
              have : gdp.filter DataLoader.isInvalidGdpValue = [] := by
                have := Nat.eq_zero_of_not_pos hfil
                exact List.length_eq_zero.mp this
              have := List.filter_eq_nil.mp this v hv
              simpa using this
      next hg => exact absurd h (by simp)
    next hc => exact absurd h (by simp)

/-- A well-formed one-row input with a finite gdp value. -/
def validInput : JSValue :=
  .object [("countries", .array [.string "ITA"]),
           ("gdp", .array [.number (.finite 10)])]

/-- Witness for `validateData_accepted_shape` on `validInput`. -/
theorem validateData_accepted_shape_witness :
    DataLoader.validateData validInput = .ok () ∧
    ∃ countries gdp,
      JSValue.getField validInput "countries" = .array countries ∧
      JSValue.getField validInput "gdp" = .array gdp ∧
      countries.length = gdp.length ∧
      0 < countries.length ∧
      ∀ v ∈ gdp, ∃ n, v = .number n ∧ n.isNaNJS = false :=
  ⟨rfl, validateData_accepted_shape validInput rfl⟩

/-- Claim C9 (confirmed): both load paths are atomic on failure — if
parsing, fetching, or validation fails, the promise rejects and the
stored data and fileName are left exactly as they were, because
assignment happens only after `validateData` succeeds. -/
theorem dataLoader_load_atomic (st : DataLoader.Stored)
    (parseResult response : Option JSValue) (name url : String)
    (e1 e2 : DataLoader.DataError) :
    ((DataLoader.loadFromFile st parseResult name).1 = .error e1 →
      (DataLoader.loadFromFile st parseResult name).2 = st) ∧
    ((DataLoader.loadFromURL st response url).1 = .error e2 →
      (DataLoader.loadFromURL st response url).2 = st) := by
  constructor
  · intro h
    cases parseResult with
    | none => rfl
    | some data =>
      cases hv : DataLoader.validateData data with
      | error e => simp [DataLoader.loadFromFile, hv]
      | ok u =>
        cases u
        rw [DataLoader.loadFromFile] at h
        rw [hv] at h
        simp at h
  · intro h
    cases response with
    | none => rfl
    | some data =>
      cases hv : DataLoader.validateData data with
      | error e => simp [DataLoader.loadFromURL, hv]
      | ok u =>
        cases u
        rw [DataLoader.loadFromURL] at h
        rw [hv] at h
        simp at h

/-- Witness for `dataLoader_load_atomic`: a loader with stored data,
a failed parse on the file path, and a failed fetch on the URL path. -/
theorem dataLoader_load_atomic_witness :
    ((DataLoader.loadFromFile
        { data := some validInput, fileName := some "old.json" }
        none "new.json").1 = .error .parseError ∧
      (DataLoader.loadFromURL
        { data := some validInput, fileName := some "old.json" }
        none "http://x/y.json").1 = .error .fetchError) ∧
    (DataLoader.loadFromFile
        { data := some validInput, fileName := some "old.json" }
        none "new.json").2
      = { data := some validInput, fileName := some "old.json" } ∧
    (DataLoader.loadFromURL
        { data := some validInput, fileName := some "old.json" }
        none "http://x/y.json").2
      = { data := some validInput, fileName := some "old.json" } :=
  ⟨⟨rfl, rfl⟩,
   (dataLoader_load_atomic
      { data := some validInput, fileName := some "old.json" }
      none none "new.json" "http://x/y.json"
      .parseError .fetchError).1 rfl,
   (dataLoader_load_atomic
      { data := some validInput, fileName := some "old.json" }
      none none "new.json" "http://x/y.json"
      .parseError .fetchError).2 rfl⟩

/-- Claim C10 counterexample: "constructor" is none of the three known
resolution strings, yet `getResolution` returns the member inherited
from `Object.prototype` — truthy, so the `||` fallback never fires —
and not the 1080p pair. -/
theorem configManager_getResolution_counterexample :
    ("constructor" ≠ "480p" ∧ "constructor" ≠ "720p" ∧
      "constructor" ≠ "1080p") ∧
    ConfigManager.getResolution "constructor"
      = ConfigManager.ResolutionResult.inherited "constructor" ∧
    ConfigManager.getResolution "constructor"
      ≠ ConfigManager.ResolutionResult.pair 1920 1080 := by
  refine ⟨⟨by decide, by decide, by decide⟩, rfl, by decide⟩

/-- Claim C10 (amended): `getResolution` is total — it maps '480p',
'720p' and '1080p' to their pixel pairs and every other string that is
not a property name inherited from `Object.prototype` to the 1080p
pair; for an inherited name ('constructor', 'toString', '__proto__',
...) the prototype-chain lookup returns the truthy inherited member
instead of the fallback, so those strings do not yield the 1080p
pair. -/
theorem configManager_getResolution_fallback (s : String)
    (h1 : s ≠ "480p") (h2 : s ≠ "720p") (h3 : s ≠ "1080p")
    (h4 : s ∉ ConfigManager.objectPrototypeMembers) :
    ConfigManager.getResolution "480p"
      = ConfigManager.ResolutionResult.pair 854 480 ∧
    ConfigManager.getResolution "720p"
      = ConfigManager.ResolutionResult.pair 1280 720 ∧
    ConfigManager.getResolution "1080p"
      = ConfigManager.ResolutionResult.pair 1920 1080 ∧
    ConfigManager.getResolution s
      = ConfigManager.ResolutionResult.pair 1920 1080 := by
  refine ⟨rfl, rfl, rfl, ?_⟩
  rw [ConfigManager.getResolution, if_neg h1, if_neg h2, if_neg h3,
    if_neg h4]

/-- Witness for `configManager_getResolution_fallback` at the unknown
resolution string "240p". -/
theorem configManager_getResolution_fallback_witness :
    ("240p" ≠ "480p" ∧ "240p" ≠ "720p" ∧ "240p" ≠ "1080p" ∧
      "240p" ∉ ConfigManager.objectPrototypeMembers) ∧
    (ConfigManager.getResolution "480p"
      = ConfigManager.ResolutionResult.pair 854 480 ∧
    ConfigManager.getResolution "720p"
      = ConfigManager.ResolutionResult.pair 1280 720 ∧
    ConfigManager.getResolution "1080p"
      = ConfigManager.ResolutionResult.pair 1920 1080 ∧
    ConfigManager.getResolution "240p"
      = ConfigManager.ResolutionResult.pair 1920 1080) :=
  ⟨⟨by decide, by decide, by decide, by decide⟩,
    configManager_getResolution_fallback "240p"
      (by decide) (by decide) (by decide) (by decide)⟩
